import Mathlib

/-!
Shallow embedding of `src/app.py`, a Streamlit + Firestore group-chat client.

The remote Firestore store is modelled explicitly:
* a document is an association list of field names to values (`Doc`);
* `SERVER_TIMESTAMP` is a sentinel resolved by the store at commit time, so a
  message's `timestamp` field is `absent`, `pending` (written but not yet
  resolved, read back as null) or `resolved t`;
* `set(..., merge=True)` is field-wise merge (`setMerge`) on the single
  document stored under a key (`docSetMerge`).

Streamlit session state (`st.session_state`) is the record `SessionState`;
the join-form and chat-input handlers are the functions `handle_join` and
`handle_chat_input`, taking the outcome of the Firestore write (`writeOk`)
as a parameter. `st.cache_data(ttl=60)` is modelled by `CacheState` and the
TTL gate inside `get_user_list`. Python truthiness of an optional string
(`if prompt:`, `if not display_name:`) is `pyTruthy`.
-/

/-- A Firestore field value, as used by this app. -/
inductive FSValue where
  | str (s : String)
  | serverTimestamp
  | time (t : Nat)
  deriving DecidableEq

/-- A Firestore document: fields by name. -/
abbrev Doc := List (String × FSValue)

/-- Field read on a document. -/
def getField (d : Doc) (k : String) : Option FSValue :=
  List.lookup k d

/-- Firestore `set(..., merge=True)` on one document: fields of `new`
overwrite, all other fields of `old` are preserved. -/
def setMerge (old new : Doc) : Doc :=
  new ++ old.filter (fun kv => (List.lookup kv.1 new).isNone)

/-- A keyed collection of documents (document id → document). -/
abbrev Collection := List (String × Doc)

/-- Whether the collection holds a document under `id`. -/
def hasKey (c : Collection) (id : String) : Bool :=
  c.any (fun kv => kv.1 == id)

/-- Number of documents stored under `id`. -/
def countKey (c : Collection) (id : String) : Nat :=
  c.countP (fun kv => kv.1 == id)

/-- Firestore `document(id).set(data, merge=True)`: update the document under `id`
by field-wise merge, or create it when absent. -/
def docSetMerge (c : Collection) (id : String) (data : Doc) : Collection :=
  if hasKey c id then
    c.map (fun kv => if kv.1 == id then (kv.1, setMerge kv.2 data) else kv)
  else
    c ++ [(id, data)]

/-- The state of a message's server-assigned `timestamp` field. -/
inductive TsField where
  | absent
  | pending
  | resolved (t : Nat)
  deriving DecidableEq

/-- The check `'timestamp' in msg and msg['timestamp']` from `load_messages`
(app.py line 139): the field must be present and truthy (a pending server
timestamp reads back as null, which is falsy). -/
def hasValidTimestamp : TsField → Bool
  | .resolved _ => true
  | _ => false

/-- Sort key used by the store's `order_by("timestamp", ASCENDING)`; documents
without a resolved timestamp are keyed 0 here, they are filtered out by
`load_messages` below exactly as in the code. -/
def tsKey : TsField → Nat
  | .resolved t => t
  | _ => 0

/-- A message document (app.py lines 247-253). -/
structure MsgDoc where
  user_id : Option String
  display_name : Option String
  avatar : Option String
  text : Option String
  timestamp : TsField
  deriving DecidableEq

/-- Timestamp-ascending comparison used by the store's ordered query. -/
def msgLE (a b : MsgDoc) : Bool :=
  decide (tsKey a.timestamp ≤ tsKey b.timestamp)

/-- The function `load_messages` (app.py lines 129-144): the store streams the messages
ordered ascending by `timestamp`; the client keeps only those whose
`timestamp` field is present and resolved. -/
def load_messages (store : List MsgDoc) : List MsgDoc :=
  (store.mergeSort msgLE).filter (fun m => hasValidTimestamp m.timestamp)

theorem msgLE_trans (a b c : MsgDoc) (h1 : msgLE a b = true) (h2 : msgLE b c = true) :
    msgLE a c = true := by
  simp only [msgLE, decide_eq_true_eq] at *
  omega

theorem msgLE_total (a b : MsgDoc) : (msgLE a b || msgLE b a) = true := by
  simp only [msgLE, Bool.or_eq_true, decide_eq_true_eq]
  omega

/-- C1: `load_messages` returns a list that is non-decreasing in the
server-assigned timestamp, contains only records with a resolved timestamp,
consists of records of the store, and includes every store record whose
timestamp is resolved — records whose `timestamp` field is absent or still
pending are excluded. -/
theorem C1_load_messages_sorted_and_filtered (store : List MsgDoc) :
    List.Pairwise (fun a b => tsKey a.timestamp ≤ tsKey b.timestamp) (load_messages store)
    ∧ (∀ m ∈ load_messages store, hasValidTimestamp m.timestamp = true)
    ∧ (∀ m ∈ load_messages store, m ∈ store)
    ∧ (∀ m ∈ store, hasValidTimestamp m.timestamp = true → m ∈ load_messages store) := by
  refine ⟨?_, ?_, ?_, ?_⟩
  · have hs : List.Pairwise (fun a b => msgLE a b = true) (store.mergeSort msgLE) :=
      List.sorted_mergeSort msgLE_trans msgLE_total store
    have hsub : (load_messages store).Sublist (store.mergeSort msgLE) :=
      List.filter_sublist _
    exact (List.Pairwise.sublist hsub hs).imp
      (fun h => by simpa [msgLE, decide_eq_true_eq] using h)
  · intro m hm
    exact (List.mem_filter.mp hm).2
  · intro m hm
    exact (List.mergeSort_perm store msgLE).mem_iff.mp (List.mem_filter.mp hm).1
  · intro m hm hv
    exact List.mem_filter.mpr ⟨(List.mergeSort_perm store msgLE).mem_iff.mpr hm, hv⟩

/-- Sample resolved message used to instantiate hypotheses. -/
def demoMsg : MsgDoc :=
  { user_id := some "u1", display_name := some "Ann", avatar := some "🌟",
    text := some "hi", timestamp := .resolved 5 }

/-- Sample message whose server timestamp has not resolved yet. -/
def demoPendingMsg : MsgDoc :=
  { user_id := some "u2", display_name := some "Bo", avatar := some "🤖",
    text := some "yo", timestamp := .pending }

theorem C1_witness :
    demoMsg ∈ load_messages [demoPendingMsg, demoMsg] :=
  (C1_load_messages_sorted_and_filtered [demoPendingMsg, demoMsg]).2.2.2
    demoMsg (by decide) (by decide)

/-- Python truthiness of an optional string: `None` and `""` are falsy
(`if prompt:`, `if not display_name:`). -/
def pyTruthy : Option String → Bool
  | none => false
  | some s => s != ""

/-- The `st.session_state` fields used by the app (app.py lines 105-112). -/
structure SessionState where
  user_id : String
  display_name : Option String
  avatar : Option String
  chat_ready : Bool
  deriving DecidableEq

/-- Session state at first load: a fresh uuid `user_id`, no display name or
avatar, `chat_ready = False` (app.py lines 105-112). -/
def initSession (fresh_uuid : String) : SessionState :=
  { user_id := fresh_uuid, display_name := none, avatar := none, chat_ready := false }

/-- The profile document written by the join handler (app.py lines 172-177). -/
def joinData (uid name avatar : String) : Doc :=
  [("user_id", .str uid), ("display_name", .str name),
   ("avatar", .str avatar), ("joined_at", .serverTimestamp)]

/-- Outcome of one run of the join-form submit handler. -/
structure JoinResult where
  session : SessionState
  users : Collection
  networkAttempted : Bool
  errorReported : Bool
  deriving DecidableEq

/-- The join-form submit handler (app.py lines 159-182): reject a falsy
display name with an error; otherwise set `display_name`, `avatar` and
`chat_ready = True` in session state, then upsert the profile document
keyed by `user_id` with `merge=True`; if that write raises, report the
error and set `chat_ready` back to `False`. `writeOk` is whether the
Firestore write succeeds. -/
def handle_join (s : SessionState) (users : Collection) (name avatar : String)
    (writeOk : Bool) : JoinResult :=
  if !pyTruthy (some name) then
    { session := s, users := users, networkAttempted := false, errorReported := true }
  else
    let s1 : SessionState :=
      { s with display_name := some name, avatar := some avatar, chat_ready := true }
    if writeOk then
      { session := s1,
        users := docSetMerge users s.user_id (joinData s.user_id name avatar),
        networkAttempted := true, errorReported := false }
    else
      { session := { s1 with chat_ready := false }, users := users,
        networkAttempted := true, errorReported := true }

/-- The message document written by the chat-input handler (app.py lines
247-253), with its server timestamp resolved to `serverTime` at commit. -/
def sentMsg (s : SessionState) (text : String) (serverTime : Nat) : MsgDoc :=
  { user_id := some s.user_id, display_name := s.display_name,
    avatar := s.avatar, text := some text, timestamp := .resolved serverTime }

/-- Outcome of one run of the chat-input handler. -/
structure SendResult where
  messages : List MsgDoc
  networkAttempted : Bool
  errorReported : Bool
  deriving DecidableEq

/-- The chat-input handler (app.py lines 239-257): `st.chat_input` yields
`prompt` (`none` when nothing was submitted); a falsy prompt does nothing;
otherwise, if the session is not chat-ready or has a falsy display name,
an error is shown and nothing is written; otherwise a new message document
is appended to the messages collection with a server-assigned timestamp
(`serverTime` is the value the store resolves it to at commit; `writeOk`
is whether the write succeeds). -/
def handle_chat_input (s : SessionState) (msgs : List MsgDoc) (prompt : Option String)
    (writeOk : Bool) (serverTime : Nat) : SendResult :=
  match prompt with
  | none => { messages := msgs, networkAttempted := false, errorReported := false }
  | some p =>
    if !pyTruthy (some p) then
      { messages := msgs, networkAttempted := false, errorReported := false }
    else if !s.chat_ready || !pyTruthy s.display_name then
      { messages := msgs, networkAttempted := false, errorReported := true }
    else if writeOk then
      { messages := msgs ++ [sentMsg s p serverTime],
        networkAttempted := true, errorReported := false }
    else
      { messages := msgs, networkAttempted := true, errorReported := true }

/-- A session that has joined, used to instantiate hypotheses. -/
def demoJoined : SessionState :=
  { user_id := "u1", display_name := some "Ann", avatar := some "🌟", chat_ready := true }

/-- C2 counterexample: the whitespace-only prompt `"   "` is truthy in
Python, so the handler does reach the network write and does append a
message record — the claim that whitespace-only text is rejected locally
with no network call and no record is false on the code. -/
theorem C2_counterexample :
    (∀ c ∈ "   ".toList, c.isWhitespace = true)
    ∧ (handle_chat_input demoJoined [] (some "   ") true 7).networkAttempted = true
    ∧ (handle_chat_input demoJoined [] (some "   ") true 7).messages ≠ [] := by
  decide

/-- C2 amended: only a falsy text input (no submission, or the empty
string) is rejected locally — no network call is attempted and the message
store is unchanged; a non-empty text, whitespace-only included, is sent
as-is when the session is joined. -/
theorem C2_amended (s : SessionState) (msgs : List MsgDoc) (ok : Bool) (t : Nat) :
    (handle_chat_input s msgs none ok t
      = { messages := msgs, networkAttempted := false, errorReported := false })
    ∧ (handle_chat_input s msgs (some "") ok t
      = { messages := msgs, networkAttempted := false, errorReported := false })
    ∧ (∀ p : String, p ≠ "" → s.chat_ready = true → pyTruthy s.display_name = true →
        (handle_chat_input s msgs (some p) true t).messages
          = msgs ++ [sentMsg s p t]) := by
  refine ⟨rfl, by simp [handle_chat_input, pyTruthy], ?_⟩
  intro p hp hready hname
  simp only [pyTruthy] at hname
  simp [handle_chat_input, pyTruthy, hp, hready, hname]

theorem C2_amended_witness :
    (handle_chat_input demoJoined [] (some "   ") true 7).messages
      = [sentMsg demoJoined "   " 7] :=
  (C2_amended demoJoined [] true 7).2.2 "   " (by decide) (by decide) (by decide)

/-- C3: when the profile write of a join fails, the session reverts to
not-joined (`chat_ready = False`), the failure is reported, the users
collection is untouched, and `user_id` is unchanged; consequently a retried
join in the same session reuses the original `user_id` — its write is keyed
by it. -/
theorem C3_join_failure_retains_identity (s : SessionState) (users : Collection)
    (name avatar : String) (hname : name ≠ "") :
    (handle_join s users name avatar false).session.chat_ready = false
    ∧ (handle_join s users name avatar false).errorReported = true
    ∧ (handle_join s users name avatar false).session.user_id = s.user_id
    ∧ (handle_join s users name avatar false).users = users
    ∧ (∀ n2 a2 : String, n2 ≠ "" →
        (handle_join (handle_join s users name avatar false).session
            (handle_join s users name avatar false).users n2 a2 true).session.user_id
          = s.user_id
        ∧ (handle_join (handle_join s users name avatar false).session
            (handle_join s users name avatar false).users n2 a2 true).users
          = docSetMerge users s.user_id (joinData s.user_id n2 a2)) := by
  refine ⟨?_, ?_, ?_, ?_, ?_⟩ <;>
    simp [handle_join, pyTruthy, hname]
  intro n2 a2 h2
  simp [handle_join, pyTruthy, hname, h2]

theorem C3_witness :
    (handle_join (initSession "u0") [] "Ann" "🌟" false).session.user_id = "u0" :=
  (C3_join_failure_retains_identity (initSession "u0") [] "Ann" "🌟" (by decide)).2.2.1

/-- C10: on a failed join write only `chat_ready` is reverted; the
resulting session keeps the original `user_id` and holds exactly the
`display_name` and `avatar` submitted in the failed attempt. -/
theorem C10_join_failure_frame (s : SessionState) (users : Collection)
    (name avatar : String) (hname : name ≠ "") :
    (handle_join s users name avatar false).session
      = { user_id := s.user_id, display_name := some name,
          avatar := some avatar, chat_ready := false } := by
  simp [handle_join, pyTruthy, hname]

theorem C10_witness :
    (handle_join demoJoined [] "Zoe" "👻" false).session
      = { user_id := "u1", display_name := some "Zoe",
          avatar := some "👻", chat_ready := false } :=
  C10_join_failure_frame demoJoined [] "Zoe" "👻" (by decide)

/-- A session that has not joined yet, used to instantiate hypotheses. -/
def demoFresh : SessionState := initSession "u1"

/-- C7 counterexample: the whitespace-only display name `"   "` is truthy
in Python, so the join handler accepts it: the store write is attempted,
the profile record is created and the session flips to joined — the claim
that a display name which trims to empty is rejected before any store
interaction is false on the code. -/
theorem C7_counterexample :
    (∀ c ∈ "   ".toList, c.isWhitespace = true)
    ∧ (handle_join demoFresh [] "   " "🤖" true).networkAttempted = true
    ∧ (handle_join demoFresh [] "   " "🤖" true).session.chat_ready = true
    ∧ (handle_join demoFresh [] "   " "🤖" true).users ≠ [] := by
  decide

/-- C7 amended: only the empty display name is rejected before any store
interaction (nothing written, session unchanged, so still not joined); any
non-empty display name — whitespace-only included — is accepted: the
profile document is upserted keyed by the session's `user_id` and, when the
write succeeds, the session flips to joined. -/
theorem C7_amended (s : SessionState) (users : Collection) (avatar : String) :
    (handle_join s users "" avatar true
      = { session := s, users := users, networkAttempted := false, errorReported := true })
    ∧ (∀ name : String, name ≠ "" →
        (handle_join s users name avatar true).session.chat_ready = true
        ∧ (handle_join s users name avatar true).networkAttempted = true
        ∧ (handle_join s users name avatar true).users
          = docSetMerge users s.user_id (joinData s.user_id name avatar)) := by
  refine ⟨by simp [handle_join, pyTruthy], ?_⟩
  intro name hname
  refine ⟨?_, ?_, ?_⟩ <;> simp [handle_join, pyTruthy, hname]

theorem C7_witness :
    (handle_join demoFresh [] "Ann" "🌟" true).users
      = docSetMerge [] "u1" (joinData "u1" "Ann" "🌟") :=
  ((C7_amended demoFresh [] "🌟").2 "Ann" (by decide)).2.2

/-- Body of `get_user_list` (app.py lines 117-127): stream the users
collection; on an exception report the error (`st.error`) and return the
empty list. The fetch outcome is the `Except` argument; the returned flag
records whether an error was reported. -/
def get_user_list_body : Except String (List Doc) → List Doc × Bool
  | .ok us => (us, false)
  | .error _ => ([], true)

/-- State of the `@st.cache_data(ttl=60)` cache wrapping `get_user_list`:
the cached return value together with the time it was stored, if any. -/
structure CacheState where
  entry : Option (List Doc × Nat)
  deriving DecidableEq

/-- Outcome of one cached `get_user_list()` call. -/
structure RosterResult where
  value : List Doc
  cache : CacheState
  errorReported : Bool
  deriving DecidableEq

/-- The function `get_user_list` under its `@st.cache_data(ttl=60)` decorator (app.py
line 116): a call less than 60 time units after the cached entry was stored
returns it without touching the store; otherwise the body runs against the
store (`fetch` is its outcome) and its return value — the fresh list, or
`[]` on failure — replaces the cache. -/
def get_user_list (cs : CacheState) (now : Nat) (fetch : Except String (List Doc)) :
    RosterResult :=
  match cs.entry with
  | some (v, t0) =>
    if now < t0 + 60 then
      { value := v, cache := cs, errorReported := false }
    else
      { value := (get_user_list_body fetch).1,
        cache := { entry := some ((get_user_list_body fetch).1, now) },
        errorReported := (get_user_list_body fetch).2 }
  | none =>
    { value := (get_user_list_body fetch).1,
      cache := { entry := some ((get_user_list_body fetch).1, now) },
      errorReported := (get_user_list_body fetch).2 }

/-- A cached roster entry used to instantiate hypotheses. -/
def demoUserDoc : Doc :=
  [("user_id", FSValue.str "u9"), ("display_name", FSValue.str "Zoe"),
   ("avatar", FSValue.str "👻")]

/-- C4 counterexample: with a snapshot cached at time 0, a refresh at time
60 whose fetch fails returns `[]` — not the previous snapshot — and the
cache now holds `[]`: the claim that a failed refresh leaves the cached
snapshot in place and returns it is false on the code (the body swallows
the exception and returns `[]`, which `st.cache_data` then stores). -/
theorem C4_counterexample :
    (get_user_list { entry := some ([demoUserDoc], 0) } 60 (.error "outage")).value
        ≠ [demoUserDoc]
    ∧ (get_user_list { entry := some ([demoUserDoc], 0) } 60 (.error "outage")).value = []
    ∧ (get_user_list { entry := some ([demoUserDoc], 0) } 60 (.error "outage")).cache
        = { entry := some ([], 60) } := by
  decide

/-- C4 amended: when a roster refresh fails, `get_user_list` reports the
failure and returns the empty list, which replaces the cached snapshot —
the previous snapshot is not retained; the failure is swallowed rather
than raised, so rendering is not aborted by an exception. -/
theorem C4_amended (v : List Doc) (t0 now : Nat) (err : String)
    (hexp : t0 + 60 ≤ now) :
    get_user_list { entry := some (v, t0) } now (.error err)
      = { value := [], cache := { entry := some ([], now) }, errorReported := true } := by
  simp [get_user_list, get_user_list_body, Nat.not_lt.mpr hexp]

theorem C4_witness :
    get_user_list { entry := some ([demoUserDoc], 0) } 60 (.error "outage")
      = { value := [], cache := { entry := some ([], 60) }, errorReported := true } :=
  C4_amended [demoUserDoc] 0 60 "outage" (by decide)

/-- C8: a `get_user_list` call made less than 60 time units after the
cached entry was stored returns that entry unchanged — whatever the store
now holds, success or failure — and leaves the cache in place; a call made
60 or more units later performs the fetch, and on success returns the
fresh store contents and replaces the cache with them. -/
theorem C8_roster_cache_ttl (v : List Doc) (t0 now : Nat) :
    (now < t0 + 60 →
      ∀ fetch : Except String (List Doc),
        get_user_list { entry := some (v, t0) } now fetch
          = { value := v, cache := { entry := some (v, t0) }, errorReported := false })
    ∧ (t0 + 60 ≤ now →
      ∀ store : List Doc,
        get_user_list { entry := some (v, t0) } now (.ok store)
          = { value := store, cache := { entry := some (store, now) },
              errorReported := false }) := by
  constructor
  · intro hlt fetch
    simp [get_user_list, hlt]
  · intro hge store
    simp [get_user_list, get_user_list_body, Nat.not_lt.mpr hge]

theorem C8_witness :
    get_user_list { entry := some ([demoUserDoc], 0) } 59 (.ok [])
      = { value := [demoUserDoc], cache := { entry := some ([demoUserDoc], 0) },
          errorReported := false } :=
  (C8_roster_cache_ttl [demoUserDoc] 0 59).1 (by decide) (.ok [])

/-- One rendered chat bubble: the arguments passed to `st.chat_message`
and `st.markdown`. -/
structure RenderedMsg where
  name : String
  avatar : Option String
  text : String
  deriving DecidableEq

/-- One iteration of the chat render loop (app.py lines 219-232): every
field is read with `.get` and a default, `is_user` compares the record's
`user_id` with the session's, own messages render with no avatar. -/
def render_msg (current_user : String) (m : MsgDoc) : RenderedMsg :=
  let is_user := m.user_id == some current_user
  { name := m.display_name.getD "Guest"
  , avatar := if is_user then none else some (m.avatar.getD "👤")
  , text := m.text.getD "*message not found*" }

/-- The chat render loop over the loaded messages. -/
def render_chat (current_user : String) (msgs : List MsgDoc) : List RenderedMsg :=
  msgs.map (render_msg current_user)

/-- C9: the render loop is total — it renders every loaded record, one
bubble each — and a record missing `display_name`, `text`, `avatar` or
`user_id` renders with the defaults `"Guest"`, `"*message not found*"` and
`"👤"` instead of failing a lookup. -/
theorem C9_render_defaults (u : String) (m : MsgDoc) (msgs : List MsgDoc) :
    (render_chat u msgs).length = msgs.length
    ∧ (m.display_name = none → (render_msg u m).name = "Guest")
    ∧ (m.text = none → (render_msg u m).text = "*message not found*")
    ∧ (m.user_id = none → (render_msg u m).avatar = some (m.avatar.getD "👤"))
    ∧ (m.avatar = none → m.user_id ≠ some u → (render_msg u m).avatar = some "👤") := by
  refine ⟨List.length_map _ _, ?_, ?_, ?_, ?_⟩
  · intro h; simp [render_msg, h]
  · intro h; simp [render_msg, h]
  · intro h; simp [render_msg, h]
  · intro h hne; simp [render_msg, h, hne]

/-- A message with every optional field absent. -/
def blankMsg : MsgDoc :=
  { user_id := none, display_name := none, avatar := none, text := none,
    timestamp := .resolved 3 }

theorem C9_witness :
    (render_msg "u1" blankMsg).name = "Guest"
    ∧ (render_msg "u1" blankMsg).text = "*message not found*"
    ∧ (render_msg "u1" blankMsg).avatar = some "👤" :=
  ⟨(C9_render_defaults "u1" blankMsg []).2.1 rfl,
   (C9_render_defaults "u1" blankMsg []).2.2.1 rfl,
   (C9_render_defaults "u1" blankMsg []).2.2.2.1 rfl⟩

/-- An interaction the script can process in one rerun: a join-form
submission or a chat-input submission (with the outcome of the respective
Firestore write, and for sends the timestamp the store resolves). -/
inductive Event where
  | join (name avatar : String) (writeOk : Bool)
  | send (prompt : Option String) (writeOk : Bool) (serverTime : Nat)

/-- The client-visible world: the session state plus the two remote
collections. -/
structure World where
  session : SessionState
  users : Collection
  messages : List MsgDoc
  deriving DecidableEq

/-- One rerun of the script (app.py lines 149-257): when `chat_ready` is
false only the join form is rendered, so only a join submission can do
anything; when it is true only the chat screen is rendered, so only a
chat-input submission can. -/
def step (w : World) : Event → World
  | .join name avatar writeOk =>
    if w.session.chat_ready then w
    else
      { w with session := (handle_join w.session w.users name avatar writeOk).session,
               users := (handle_join w.session w.users name avatar writeOk).users }
  | .send prompt writeOk serverTime =>
    if w.session.chat_ready then
      { w with messages :=
          (handle_chat_input w.session w.messages prompt writeOk serverTime).messages }
    else w

/-- The world at first load of a client session: fresh `user_id`, nothing
joined, and whatever the remote collections hold is irrelevant to the
session invariant, so we start them empty. -/
def initWorld (fresh_uuid : String) : World :=
  { session := initSession fresh_uuid, users := [], messages := [] }

/-- Worlds reachable from first load by processing interactions. -/
inductive Reachable (fresh_uuid : String) : World → Prop
  | init : Reachable fresh_uuid (initWorld fresh_uuid)
  | next (w : World) (e : Event) :
      Reachable fresh_uuid w → Reachable fresh_uuid (step w e)

theorem reachable_ready_has_name (u : String) (w : World) (h : Reachable u w) :
    w.session.chat_ready = true → pyTruthy w.session.display_name = true := by
  induction h with
  | init => intro h; simp [initWorld, initSession] at h
  | next w e _ ih =>
    cases e with
    | join name avatar writeOk =>
      by_cases hr : w.session.chat_ready
      · simpa [step, hr] using ih
      · simp only [step, hr, if_neg, Bool.false_eq_true, not_false_iff, ite_false]
        by_cases hn : name = ""
        · simpa [handle_join, pyTruthy, hn] using ih
        · cases writeOk <;> simp [handle_join, pyTruthy, hn]
    | send prompt writeOk serverTime =>
      by_cases hr : w.session.chat_ready
      · simpa [step, hr] using ih
      · simp [step, hr]

/-- C5: in every reachable world, being joined (`chat_ready`) implies a
truthy display name is set, and while not joined a chat submission is
inert: the world — in particular the message store — is unchanged, and
even the raw chat-input handler attempts no network write. -/
theorem C5_send_requires_joined (u : String) (w : World) (h : Reachable u w) :
    (w.session.chat_ready = true → pyTruthy w.session.display_name = true)
    ∧ (w.session.chat_ready = false →
        ∀ (prompt : Option String) (writeOk : Bool) (serverTime : Nat),
          step w (.send prompt writeOk serverTime) = w
          ∧ (handle_chat_input w.session w.messages prompt writeOk serverTime).messages
              = w.messages
          ∧ (handle_chat_input w.session w.messages prompt writeOk
              serverTime).networkAttempted = false) := by
  refine ⟨reachable_ready_has_name u w h, ?_⟩
  intro hr prompt writeOk serverTime
  refine ⟨by simp [step, hr], ?_, ?_⟩ <;>
  · cases prompt with
    | none => rfl
    | some p =>
      by_cases hp : p = "" <;> simp [handle_chat_input, pyTruthy, hp, hr]

theorem C5_witness :
    step (initWorld "u0") (.send (some "hi") true 3) = initWorld "u0" :=
  ((C5_send_requires_joined "u0" (initWorld "u0") Reachable.init).2 rfl
    (some "hi") true 3).1

theorem lookup_filter_kept (new : Doc) (k : String)
    (h : List.lookup k new = none) (old : Doc) :
    List.lookup k (old.filter (fun kv => (List.lookup kv.1 new).isNone))
      = List.lookup k old := by
  induction old with
  | nil => rfl
  | cons kv rest ih =>
    obtain ⟨k1, v1⟩ := kv
    by_cases hb : k = k1
    · subst hb
      have hp : (List.lookup k new).isNone = true := by simp [h]
      rw [List.filter_cons_of_pos (by simpa using hp)]
      simp [List.lookup_cons]
    · have hbf : (k == k1) = false := beq_eq_false_iff_ne.mpr hb
      by_cases hp : (List.lookup k1 new).isNone = true
      · rw [List.filter_cons_of_pos (by simpa using hp)]
        simp [List.lookup_cons, hbf, ih]
      · rw [List.filter_cons_of_neg (by simpa using hp)]
        simp [List.lookup_cons, hbf, ih]

theorem getField_setMerge (old new : Doc) (k : String) :
    getField (setMerge old new) k = (getField new k).or (getField old k) := by
  unfold getField setMerge
  rw [List.lookup_append]
  cases hn : List.lookup k new with
  | some v => rfl
  | none => simp [lookup_filter_kept new k hn old]

theorem hasKey_of_mem {c : Collection} {id : String} {d : Doc}
    (h : (id, d) ∈ c) : hasKey c id = true :=
  List.any_eq_true.mpr ⟨(id, d), h, by simp⟩

theorem countKey_ne_zero_of_hasKey {c : Collection} {id : String}
    (h : hasKey c id = true) : countKey c id ≠ 0 := by
  obtain ⟨kv, hkv, hp⟩ := List.any_eq_true.mp h
  intro h0
  exact absurd hp (by simpa using List.countP_eq_zero.mp h0 kv hkv)

theorem countKey_eq_zero_of_not_hasKey {c : Collection} {id : String}
    (h : hasKey c id = false) : countKey c id = 0 := by
  refine List.countP_eq_zero.mpr ?_
  intro kv hkv hp
  have hk : hasKey c id = true := List.any_eq_true.mpr ⟨kv, hkv, hp⟩
  rw [h] at hk
  exact Bool.false_ne_true hk

theorem countKey_docSetMerge_of_hasKey (c : Collection) (id : String) (data : Doc)
    (h : hasKey c id = true) :
    countKey (docSetMerge c id data) id = countKey c id := by
  unfold docSetMerge
  rw [if_pos h]
  unfold countKey
  rw [List.countP_map]
  congr 1
  funext kv
  by_cases hb : kv.1 == id <;> simp [Function.comp, hb]

theorem countKey_docSetMerge_of_not_hasKey (c : Collection) (id : String) (data : Doc)
    (h : hasKey c id = false) :
    countKey (docSetMerge c id data) id = countKey c id + 1 := by
  unfold docSetMerge
  rw [if_neg (by simp [h])]
  unfold countKey
  rw [List.countP_append]
  simp

theorem countKey_docSetMerge_self (c : Collection) (id : String) (data : Doc)
    (hone : countKey c id ≤ 1) :
    countKey (docSetMerge c id data) id = 1 := by
  by_cases h : hasKey c id = true
  · rw [countKey_docSetMerge_of_hasKey c id data h]
    have := countKey_ne_zero_of_hasKey h
    omega
  · have hf : hasKey c id = false := by simpa using h
    rw [countKey_docSetMerge_of_not_hasKey c id data hf,
        countKey_eq_zero_of_not_hasKey hf]

theorem hasKey_docSetMerge_self (c : Collection) (id : String) (data : Doc) :
    hasKey (docSetMerge c id data) id = true := by
  by_cases h : hasKey (docSetMerge c id data) id = true
  · exact h
  · exfalso
    have h0 := countKey_eq_zero_of_not_hasKey (by simpa using h)
    by_cases hk : hasKey c id = true
    · rw [countKey_docSetMerge_of_hasKey c id data hk] at h0
      exact countKey_ne_zero_of_hasKey hk h0
    · rw [countKey_docSetMerge_of_not_hasKey c id data (by simpa using hk)] at h0
      omega

theorem mem_docSetMerge {c : Collection} {id : String} {data d : Doc}
    (h : (id, d) ∈ docSetMerge c id data) :
    (∃ d0, (id, d0) ∈ c ∧ d = setMerge d0 data)
    ∨ (d = data ∧ hasKey c id = false) := by
  unfold docSetMerge at h
  by_cases hk : hasKey c id = true
  · rw [if_pos hk] at h
    left
    obtain ⟨kv, hkv, heq⟩ := List.mem_map.mp h
    obtain ⟨k1, v1⟩ := kv
    by_cases hb : (k1 == id) = true
    · rw [if_pos hb] at heq
      have hk1 : k1 = id := by simpa using hb
      injection heq with e1 e2
      exact ⟨v1, by rwa [hk1] at hkv, e2.symm⟩
    · rw [if_neg (by simpa using hb)] at heq
      injection heq with e1 e2
      exact absurd (by simp [e1]) hb
  · rw [if_neg hk] at h
    rcases List.mem_append.mp h with h1 | h2
    · exact absurd (hasKey_of_mem h1) (by simpa using hk)
    · right
      refine ⟨?_, by simpa using hk⟩
      simpa using h2

theorem countP_le_one_unique {α : Type} {p : α → Bool} :
    ∀ {l : List α}, l.countP p ≤ 1 →
      ∀ {a b : α}, a ∈ l → b ∈ l → p a = true → p b = true → a = b := by
  intro l
  induction l with
  | nil => intro _ a b ha; exact absurd ha (List.not_mem_nil a)
  | cons x xs ih =>
    intro h a b ha hb hpa hpb
    rw [List.countP_cons] at h
    by_cases hx : p x = true
    · rw [hx] at h
      simp at h
      have hnone : ∀ y ∈ xs, ¬ p y = true := fun y hy => by simp [h y hy]
      rcases List.mem_cons.mp ha with h1 | h1
      · rcases List.mem_cons.mp hb with h2 | h2
        · rw [h1, h2]
        · exact absurd hpb (hnone b h2)
      · exact absurd hpa (hnone a h1)
    · rcases List.mem_cons.mp ha with h1 | h1
      · exact absurd (h1 ▸ hpa) hx
      · rcases List.mem_cons.mp hb with h2 | h2
        · exact absurd (h2 ▸ hpb) hx
        · exact ih (by simpa [hx] using h) h1 h2 hpa hpb

theorem getField_joinData_user_id (uid n a : String) :
    getField (joinData uid n a) "user_id" = some (.str uid) := rfl

theorem getField_joinData_display_name (uid n a : String) :
    getField (joinData uid n a) "display_name" = some (.str n) := rfl

theorem getField_joinData_avatar (uid n a : String) :
    getField (joinData uid n a) "avatar" = some (.str a) := rfl

theorem getField_joinData_other (uid n a k : String)
    (h1 : k ≠ "user_id") (h2 : k ≠ "display_name") (h3 : k ≠ "avatar")
    (h4 : k ≠ "joined_at") :
    getField (joinData uid n a) k = none := by
  simp [getField, joinData, List.lookup_cons,
    beq_eq_false_iff_ne.mpr h1, beq_eq_false_iff_ne.mpr h2,
    beq_eq_false_iff_ne.mpr h3, beq_eq_false_iff_ne.mpr h4]

/-- C6: starting from a users collection holding at most one record under
the session's `user_id`, two successive join writes (upserts with merge)
leave exactly one record under that id; that record carries the latest
`display_name` and `avatar` and the `user_id` itself, and every field
outside the four written by the join handler keeps the value it had in the
pre-existing record — re-joining neither duplicates the record nor wipes
unrelated fields. -/
theorem C6_join_upsert_single_record (users : Collection) (uid n1 a1 n2 a2 : String)
    (hone : countKey users uid ≤ 1) :
    countKey (docSetMerge (docSetMerge users uid (joinData uid n1 a1)) uid
        (joinData uid n2 a2)) uid = 1
    ∧ ∀ d : Doc,
        (uid, d) ∈ docSetMerge (docSetMerge users uid (joinData uid n1 a1)) uid
          (joinData uid n2 a2) →
        getField d "user_id" = some (.str uid)
        ∧ getField d "display_name" = some (.str n2)
        ∧ getField d "avatar" = some (.str a2)
        ∧ (∀ k : String, k ≠ "user_id" → k ≠ "display_name" → k ≠ "avatar" →
            k ≠ "joined_at" → ∀ d0 : Doc, (uid, d0) ∈ users →
              getField d k = getField d0 k) := by
  have hc1 : countKey (docSetMerge users uid (joinData uid n1 a1)) uid = 1 :=
    countKey_docSetMerge_self users uid _ hone
  constructor
  · exact countKey_docSetMerge_self _ uid _ (by omega)
  · intro d hd
    rcases mem_docSetMerge hd with ⟨d1, hd1, rfl⟩ | ⟨rfl, hk⟩
    · refine ⟨?_, ?_, ?_, ?_⟩
      · rw [getField_setMerge, getField_joinData_user_id]; rfl
      · rw [getField_setMerge, getField_joinData_display_name]; rfl
      · rw [getField_setMerge, getField_joinData_avatar]; rfl
      · intro k hk1 hk2 hk3 hk4 d0 hd0
        rw [getField_setMerge, getField_joinData_other uid n2 a2 k hk1 hk2 hk3 hk4,
            Option.none_or]
        rcases mem_docSetMerge hd1 with ⟨d0', hd0', rfl⟩ | ⟨rfl, hk⟩
        · rw [getField_setMerge, getField_joinData_other uid n1 a1 k hk1 hk2 hk3 hk4,
              Option.none_or]
          have huniq : (uid, d0') = (uid, d0) :=
            countP_le_one_unique hone hd0' hd0 (by simp) (by simp)
          injection huniq with e1 e2
          rw [e2]
        · exact absurd (hasKey_of_mem hd0) (by simp [hk])
    · exact absurd (hasKey_docSetMerge_self users uid (joinData uid n1 a1))
        (by simp [hk])

/-- A users collection with one pre-existing record for `u1` carrying a
field the join handler never writes. -/
def demoUsers : Collection :=
  [("u1", [("user_id", FSValue.str "u1"), ("theme", FSValue.str "dark")])]

theorem C6_witness :
    countKey (docSetMerge (docSetMerge demoUsers "u1" (joinData "u1" "Ann" "🌟")) "u1"
        (joinData "u1" "Bo" "🤖")) "u1" = 1 :=
  (C6_join_upsert_single_record demoUsers "u1" "Ann" "🌟" "Bo" "🤖" (by decide)).1
